import Mathlib

/-!
Shallow embedding of the laundry-room REST API (Rust, actix-web + sqlx/Postgres).

The database state is modelled as lists of rows, one list per table
(`room`, `machine`, `user`, `report`).  Each HTTP handler from
`src/room.rs`, `src/machine.rs`, `src/user.rs` and `src/report.rs` is
translated into a pure function from a database state (plus the request
parameters) to a `HandlerResult`: an HTTP status code, an optional JSON
body, and the database state after the statement ran.  Generated primary
keys (Postgres `SERIAL`) are modelled by counters `next_room_id` /
`next_report_id` carried in the state.  Handlers are modelled on the
path where the storage engine itself does not fail, except for
`submit_report`, whose insert-error branch performs status
classification that the specification talks about: there the outcome of
the `INSERT` is an explicit `Option SqlxError` parameter.
-/

namespace LaundryApi

/-- `MachineType` from `src/models.rs` (`Washer`, `Dryer`). -/
inductive MachineType
  | Washer
  | Dryer
  deriving DecidableEq, Repr

/-- `ReportType` from `src/models.rs` (`Operational`, `Caution`, `Broken`). -/
inductive ReportType
  | Operational
  | Caution
  | Broken
  deriving DecidableEq, Repr

/-- `Room` row (`src/models.rs`): `id`, `name`, `description`. -/
structure Room where
  room_id : Int
  name : String
  description : Option String
  deriving DecidableEq, Repr

/-- `Machine` row (`src/models.rs`): `id` (string), `room_id`, `type`. -/
structure Machine where
  machine_id : String
  room_id : Int
  machine_type : MachineType
  deriving DecidableEq, Repr

/-- `User` row (`src/models.rs`): `username`, `admin`. -/
structure User where
  username : String
  admin : Bool
  deriving DecidableEq, Repr

/-- `Report` row (`src/models.rs`).  The `NaiveDateTime` timestamp is
modelled as an abstract `Nat`. -/
structure Report where
  report_id : Int
  room_id : Int
  machine_id : String
  reporter_username : String
  report_type : ReportType
  time : Nat
  description : Option String
  archived : Bool
  deriving DecidableEq, Repr

/-- The relational database backing the service: one list of rows per
table, plus the `SERIAL` counters for the generated primary keys of
`room` and `report`. -/
structure DB where
  rooms : List Room
  machines : List Machine
  users : List User
  reports : List Report
  next_room_id : Int
  next_report_id : Int
  deriving DecidableEq, Repr

/-- The empty database. -/
def emptyDB : DB := ⟨[], [], [], [], 1, 1⟩

/-- Result of one handler invocation: HTTP status code, optional JSON
body of type `α`, and the database state afterwards. -/
structure HandlerResult (α : Type) where
  status : Nat
  body : Option α
  db : DB
  deriving Repr

/-- `RoomSubmission` request body (`src/room.rs`). -/
structure RoomSubmission where
  name : String
  description : Option String
  deriving DecidableEq, Repr

/-- `MachineSubmission` request body (`src/machine.rs`). -/
structure MachineSubmission where
  room_id : Int
  machine_id : String
  machine_type : MachineType
  deriving DecidableEq, Repr

/-- `UserSubmission` request body (`src/user.rs`). -/
structure UserSubmission where
  username : String
  admin : Bool
  deriving DecidableEq, Repr

/-- `ReportSubmission` request body (`src/report.rs`). -/
structure ReportSubmission where
  machine_id : String
  room_id : Int
  reporter_username : String
  report_type : ReportType
  description : Option String
  deriving DecidableEq, Repr

/-- `is_room_present` (`src/room.rs`): `SELECT id FROM room WHERE id = $1`,
`fetch_optional`, `is_some`. -/
def is_room_present (db : DB) (room_id : Int) : Bool :=
  db.rooms.any (fun r => r.room_id == room_id)

/-- `is_machine_present` (`src/machine.rs`): single-row lookup on the
composite key `(room_id, machine_id)`. -/
def is_machine_present (db : DB) (room_id : Int) (machine_id : String) : Bool :=
  db.machines.any (fun m => m.room_id == room_id && m.machine_id == machine_id)

/-- `is_username_present` (`src/user.rs`): single-row lookup on `username`. -/
def is_username_present (db : DB) (username : String) : Bool :=
  db.users.any (fun u => u.username == username)

/-- `is_report_present` (`src/report.rs`): single-row lookup on `id`. -/
def is_report_present (db : DB) (report_id : Int) : Bool :=
  db.reports.any (fun r => r.report_id == report_id)

/-- `get_room` (`src/room.rs`): `SELECT ... WHERE id = $1`,
`fetch_optional`; `Some` → 200 with the row, `None` → 404. -/
def get_room (db : DB) (room_id : Int) : HandlerResult Room :=
  match db.rooms.find? (fun r => r.room_id == room_id) with
  | some room => ⟨200, some room, db⟩
  | none => ⟨404, none, db⟩

/-- `add_room` (`src/room.rs`): unconditional `INSERT INTO room (name,
description) ... RETURNING ...` → 201 with the generated row. -/
def add_room (db : DB) (s : RoomSubmission) : HandlerResult Room :=
  let room : Room := ⟨db.next_room_id, s.name, s.description⟩
  ⟨201, some room,
    { db with rooms := db.rooms ++ [room], next_room_id := db.next_room_id + 1 }⟩

/-- `delete_room` (`src/room.rs`): presence check via `is_room_present`
(404 if absent), then `DELETE FROM room WHERE id = $1 RETURNING ...`
with `fetch_one` (no returned row → 500). -/
def delete_room (db : DB) (room_id : Int) : HandlerResult Room :=
  if !is_room_present db room_id then
    ⟨404, none, db⟩
  else
    match db.rooms.find? (fun r => r.room_id == room_id) with
    | none => ⟨500, none, db⟩
    | some room =>
      ⟨200, some room,
        { db with rooms := db.rooms.filter (fun r => !(r.room_id == room_id)) }⟩

/-- `get_room_reports` (`src/room.rs`): 404 if the room is absent, else
`SELECT ... FROM report WHERE room_id = $1 AND archived = false` → 200. -/
def get_room_reports (db : DB) (room_id : Int) : HandlerResult (List Report) :=
  if !is_room_present db room_id then
    ⟨404, none, db⟩
  else
    ⟨200, some (db.reports.filter (fun r => r.room_id == room_id && r.archived == false)), db⟩

/-- `get_room_archived_reports` (`src/room.rs`): 404 if the room is
absent, else runs the handler's SQL, which is
`SELECT ... FROM report WHERE room_id = $1 AND archived = false`
(the source at `src/room.rs:333` filters on `archived = false`, the same
predicate as the unarchived listing, despite the route
`/{room_id}/reports/archived` and its doc string). -/
def get_room_archived_reports (db : DB) (room_id : Int) : HandlerResult (List Report) :=
  if !is_room_present db room_id then
    ⟨404, none, db⟩
  else
    ⟨200, some (db.reports.filter (fun r => r.room_id == room_id && r.archived == false)), db⟩

/-- `get_machine` (`src/machine.rs`): lookup by composite key,
`Some` → 200 with the row, `None` → 404. -/
def get_machine (db : DB) (room_id : Int) (machine_id : String) : HandlerResult Machine :=
  match db.machines.find? (fun m => m.room_id == room_id && m.machine_id == machine_id) with
  | some machine => ⟨200, some machine, db⟩
  | none => ⟨404, none, db⟩

/-- `add_machine` (`src/machine.rs`): room absent → 400; machine already
present → 409; else `INSERT INTO machine ... RETURNING ...` → 201. -/
def add_machine (db : DB) (s : MachineSubmission) : HandlerResult Machine :=
  if !is_room_present db s.room_id then
    ⟨400, none, db⟩
  else if is_machine_present db s.room_id s.machine_id then
    ⟨409, none, db⟩
  else
    let machine : Machine := ⟨s.machine_id, s.room_id, s.machine_type⟩
    ⟨201, some machine, { db with machines := db.machines ++ [machine] }⟩

/-- `delete_machine` (`src/machine.rs`): presence check (404 if absent),
then `DELETE FROM machine WHERE room_id = $1 AND machine_id = $2
RETURNING ...` with `fetch_one`. -/
def delete_machine (db : DB) (room_id : Int) (machine_id : String) : HandlerResult Machine :=
  if !is_machine_present db room_id machine_id then
    ⟨404, none, db⟩
  else
    match db.machines.find? (fun m => m.room_id == room_id && m.machine_id == machine_id) with
    | none => ⟨500, none, db⟩
    | some machine =>
      ⟨200, some machine,
        { db with machines :=
            db.machines.filter (fun m => !(m.room_id == room_id && m.machine_id == machine_id)) }⟩

/-- `add_user` (`src/user.rs`): username already present → 409; else
`INSERT INTO public.user ... RETURNING ...` → 201. -/
def add_user (db : DB) (s : UserSubmission) : HandlerResult User :=
  if is_username_present db s.username then
    ⟨409, none, db⟩
  else
    let user : User := ⟨s.username, s.admin⟩
    ⟨201, some user, { db with users := db.users ++ [user] }⟩

/-- `delete_user` (`src/user.rs`): presence check (404 if absent), then
`DELETE FROM public.user WHERE username = $1 RETURNING ...`. -/
def delete_user (db : DB) (username : String) : HandlerResult User :=
  if !is_username_present db username then
    ⟨404, none, db⟩
  else
    match db.users.find? (fun u => u.username == username) with
    | none => ⟨500, none, db⟩
    | some user =>
      ⟨200, some user,
        { db with users := db.users.filter (fun u => !(u.username == username)) }⟩

/-- Kind of a database-reported error, after `sqlx::error::ErrorKind`:
the constraint-violation kinds plus a catch-all `other` for
database-reported errors that are not constraint violations. -/
inductive DatabaseErrorKind
  | uniqueViolation
  | foreignKeyViolation
  | notNullViolation
  | checkViolation
  | other
  deriving DecidableEq, Repr

/-- Storage-layer error, after `sqlx::Error`: `database` carries an
error reported by the database itself (of some `DatabaseErrorKind`);
the remaining constructors are the non-database failure modes of the
driver (connection, pool, decoding, ...). -/
inductive SqlxError
  | database (kind : DatabaseErrorKind)
  | ioError
  | tls
  | protocol
  | rowNotFound
  | decode
  | poolTimedOut
  | poolClosed
  | workerCrashed
  deriving DecidableEq, Repr

/-- Whether a storage error is a database-constraint violation
(`sqlx`: a `Database` error whose `ErrorKind` is one of the violation
kinds). -/
def SqlxError.isConstraintViolation : SqlxError → Bool
  | .database .uniqueViolation => true
  | .database .foreignKeyViolation => true
  | .database .notNullViolation => true
  | .database .checkViolation => true
  | _ => false

/-- `get_report` (`src/report.rs`): lookup by `id`, `Some` → 200,
`None` → 404. -/
def get_report (db : DB) (report_id : Int) : HandlerResult Report :=
  match db.reports.find? (fun r => r.report_id == report_id) with
  | some report => ⟨200, some report, db⟩
  | none => ⟨404, none, db⟩

/-- `submit_report` (`src/report.rs`): machine absent within the room →
400; else `INSERT INTO report ... RETURNING ...` with server-assigned
`time` and the table default `archived = false`.  The outcome of the
`INSERT` is a parameter: `none` means the insert succeeded (201 with the
new row); `some err` mirrors the source's error branch
`match err { sqlx::Error::Database(err) => BadRequest, _ => InternalServerError }`. -/
def submit_report (db : DB) (s : ReportSubmission) (now : Nat)
    (insertError : Option SqlxError) : HandlerResult Report :=
  if !is_machine_present db s.room_id s.machine_id then
    ⟨400, none, db⟩
  else
    match insertError with
    | some err =>
      match err with
      | SqlxError.database _ => ⟨400, none, db⟩
      | _ => ⟨500, none, db⟩
    | none =>
      let report : Report :=
        ⟨db.next_report_id, s.room_id, s.machine_id, s.reporter_username,
          s.report_type, now, s.description, false⟩
      ⟨201, some report,
        { db with reports := db.reports ++ [report],
                  next_report_id := db.next_report_id + 1 }⟩

/-- `delete_report` (`src/report.rs`): presence check (404 if absent),
then `DELETE FROM report WHERE id = $1 RETURNING ...` with `fetch_one`. -/
def delete_report (db : DB) (report_id : Int) : HandlerResult Report :=
  if !is_report_present db report_id then
    ⟨404, none, db⟩
  else
    match db.reports.find? (fun r => r.report_id == report_id) with
    | none => ⟨500, none, db⟩
    | some report =>
      ⟨200, some report,
        { db with reports := db.reports.filter (fun r => !(r.report_id == report_id)) }⟩

/-- Row transformation of `UPDATE report SET archived = true WHERE id = $1`
(`src/report.rs`): rows whose `id` matches get `archived := true`, other
rows are untouched. -/
def setArchivedIfMatch (report_id : Int) (r : Report) : Report :=
  if r.report_id == report_id then { r with archived := true } else r

/-- `archive_report` (`src/report.rs`): presence check (400 if absent —
the handler uses `BadRequest` here, not `NotFound`), then
`UPDATE report SET archived = true WHERE id = $1 RETURNING ...` with
`fetch_one` on the returned row. -/
def archive_report (db : DB) (report_id : Int) : HandlerResult Report :=
  if !is_report_present db report_id then
    ⟨400, none, db⟩
  else
    let updated := db.reports.map (setArchivedIfMatch report_id)
    match updated.find? (fun r => r.report_id == report_id) with
    | none => ⟨500, none, { db with reports := updated }⟩
    | some report => ⟨200, some report, { db with reports := updated }⟩

/-- JSON token produced by the derived `serde::Serialize` for
`MachineType` (`src/models.rs`).  The enum derives `Serialize` with no
`serde` rename attribute, so serde's default external tagging emits the
variant name verbatim; the repository's own response examples show
`"machine_type": "Dryer"`.  (The `rename_all = "lowercase"` on the enum
is an `sqlx` attribute — see `MachineType.sqlxTypeToken`.) -/
def MachineType.serdeJsonToken : MachineType → String
  | .Washer => "Washer"
  | .Dryer => "Dryer"

/-- Postgres encoding of `MachineType` under
`#[sqlx(type_name = "machine_type", rename_all = "lowercase")]`
(`src/models.rs`): the lowercased variant name, used only on the
database side. -/
def MachineType.sqlxTypeToken : MachineType → String
  | .Washer => "washer"
  | .Dryer => "dryer"

/-- JSON token produced by the derived `serde::Serialize` for
`ReportType` (`src/models.rs`); no `serde` rename attribute is present,
and the repository's response examples show `"report_type": "Broken"`. -/
def ReportType.serdeJsonToken : ReportType → String
  | .Operational => "Operational"
  | .Caution => "Caution"
  | .Broken => "Broken"

/-- Postgres encoding of `ReportType` under
`#[sqlx(type_name = "report_type", rename_all = "lowercase")]`
(`src/models.rs`). -/
def ReportType.sqlxTypeToken : ReportType → String
  | .Operational => "operational"
  | .Caution => "caution"
  | .Broken => "broken"

/-- The `(method, path)` routes bound in `main` (`src/main.rs:95-121`):
each `web::scope` prefix combined with the actix attribute of every
handler passed to `.service(...)` there.  (The Swagger UI route is
external documentation tooling and is not modelled.) -/
def registeredRoutes : List (String × String) :=
  [ ("GET", "/machine/"),
    ("GET", "/machine/{room_id}/{machine_id}"),
    ("GET", "/room/"),
    ("GET", "/room/{room_id}"),
    ("GET", "/user/"),
    ("GET", "/user/{username}"),
    ("GET", "/report/"),
    ("GET", "/report/{report_id}"),
    ("POST", "/report/"),
    ("DELETE", "/report/{report_id}") ]

/-- Every `(method, path)` for which a handler function exists in the
crate, read off the actix `#[get(...)]`/`#[post(...)]`/`#[delete(...)]`
attributes in `src/room.rs`, `src/machine.rs`, `src/user.rs` and
`src/report.rs`, prefixed with the module's scope. -/
def definedHandlerRoutes : List (String × String) :=
  [ ("GET", "/room/"),
    ("GET", "/room/{room_id}"),
    ("POST", "/room/"),
    ("DELETE", "/room/{room_id}"),
    ("GET", "/room/{room_id}/machines"),
    ("GET", "/room/{room_id}/reports"),
    ("GET", "/room/{room_id}/reports/archived"),
    ("GET", "/machine/"),
    ("GET", "/machine/{room_id}/{machine_id}"),
    ("POST", "/machine/"),
    ("DELETE", "/machine/{room_id}/{machine_id}"),
    ("GET", "/machine/{room_id}/{machine_id}/reports"),
    ("GET", "/machine/{room_id}/{machine_id}/reports/archived"),
    ("GET", "/user/"),
    ("GET", "/user/{username}"),
    ("POST", "/user/"),
    ("DELETE", "/user/{username}"),
    ("GET", "/user/{username}/reports"),
    ("GET", "/user/{username}/reports/archived"),
    ("GET", "/report/"),
    ("GET", "/report/archived"),
    ("GET", "/report/{report_id}"),
    ("POST", "/report/"),
    ("DELETE", "/report/{report_id}"),
    ("POST", "/report/archive") ]

/-- One exposed state-changing operation of the API (the mutating
handlers of the crate, with their request parameters). -/
inductive Op
  | addRoom (s : RoomSubmission)
  | deleteRoom (room_id : Int)
  | addMachine (s : MachineSubmission)
  | deleteMachine (room_id : Int) (machine_id : String)
  | addUser (s : UserSubmission)
  | deleteUser (username : String)
  | submitReport (s : ReportSubmission) (now : Nat) (insertError : Option SqlxError)
  | deleteReport (report_id : Int)
  | archiveReport (report_id : Int)

/-- The database state after one exposed operation: the `db` component
of the corresponding handler's result. -/
def step (db : DB) : Op → DB
  | .addRoom s => (add_room db s).db
  | .deleteRoom room_id => (delete_room db room_id).db
  | .addMachine s => (add_machine db s).db
  | .deleteMachine room_id machine_id => (delete_machine db room_id machine_id).db
  | .addUser s => (add_user db s).db
  | .deleteUser username => (delete_user db username).db
  | .submitReport s now insertError => (submit_report db s now insertError).db
  | .deleteReport report_id => (delete_report db report_id).db
  | .archiveReport report_id => (archive_report db report_id).db

/-- Well-formedness of the report table, as Postgres maintains it: every
report id was drawn from the `SERIAL` counter (so is below
`next_report_id`), and `id` is the primary key (two rows with equal id
are the same row). -/
def DB.wfReports (db : DB) : Prop :=
  (∀ r ∈ db.reports, r.report_id < db.next_report_id) ∧
    ∀ r ∈ db.reports, ∀ r₂ ∈ db.reports, r.report_id = r₂.report_id → r = r₂

instance (db : DB) : Decidable db.wfReports := by
  unfold DB.wfReports
  infer_instance

/-- Whether a storage error is reported by the database itself (`sqlx`:
the `Database` variant, of any `ErrorKind`). -/
def SqlxError.isDatabaseError : SqlxError → Bool
  | .database _ => true
  | _ => false

/-- The report row inserted by a successful `submit_report` call: the
generated id, the submitted fields, the server-assigned time, and the
table default `archived = false`. -/
def newReport (db : DB) (s : ReportSubmission) (now : Nat) : Report :=
  ⟨db.next_report_id, s.room_id, s.machine_id, s.reporter_username,
    s.report_type, now, s.description, false⟩

/-- Concrete room row used in the concrete scenarios below. -/
def roomOne : Room := ⟨1, "Room 1", none⟩

/-- Concrete machine row in room 1. -/
def machineA : Machine := ⟨"A", 1, MachineType.Dryer⟩

/-- Concrete user row. -/
def adminUser : User := ⟨"admin", true⟩

/-- Concrete report row for machine `A` of room 1, already archived. -/
def archivedReport : Report := ⟨1, 1, "A", "admin", ReportType.Broken, 0, some "No heat", true⟩

/-- Concrete database: one room, one machine, one user, one archived
report. -/
def dbArchived : DB := ⟨[roomOne], [machineA], [adminUser], [archivedReport], 2, 2⟩

/-- Concrete database holding only room 1. -/
def dbRoomOnly : DB := ⟨[roomOne], [], [], [], 2, 1⟩

/-- Concrete machine-creation request for machine `A` in room 1. -/
def machineSubA : MachineSubmission := ⟨1, "A", MachineType.Dryer⟩

/-- Concrete report submission against machine `A` of room 1. -/
def brokenDryerSubmission : ReportSubmission :=
  ⟨"A", 1, "admin", ReportType.Broken, some "No heat"⟩

theorem setArchivedIfMatch_report_id (report_id : Int) (r : Report) :
    (setArchivedIfMatch report_id r).report_id = r.report_id := by
  unfold setArchivedIfMatch
  split <;> rfl

theorem setArchivedIfMatch_of_beq (report_id : Int) (r : Report)
    (h : (r.report_id == report_id) = true) :
    setArchivedIfMatch report_id r = { r with archived := true } := by
  unfold setArchivedIfMatch
  rw [h]
  rfl

theorem setArchivedIfMatch_keeps_archived (report_id : Int) (r : Report)
    (h : r.archived = true) : (setArchivedIfMatch report_id r).archived = true := by
  unfold setArchivedIfMatch
  split
  · rfl
  · exact h

theorem setArchivedIfMatch_idem (report_id : Int) (r : Report) :
    setArchivedIfMatch report_id (setArchivedIfMatch report_id r) =
      setArchivedIfMatch report_id r := by
  unfold setArchivedIfMatch
  by_cases h : (r.report_id == report_id) = true
  · simp [h]
  · simp [h]

theorem map_setArchivedIfMatch_idem (report_id : Int) (l : List Report) :
    (l.map (setArchivedIfMatch report_id)).map (setArchivedIfMatch report_id) =
      l.map (setArchivedIfMatch report_id) := by
  rw [List.map_map]
  apply List.map_congr_left
  intro r _
  exact setArchivedIfMatch_idem report_id r

theorem archive_updated_find?_isSome (db : DB) (report_id : Int)
    (h : is_report_present db report_id = true) :
    ((db.reports.map (setArchivedIfMatch report_id)).find?
      (fun r => r.report_id == report_id)).isSome = true := by
  unfold is_report_present at h
  obtain ⟨x, hx, hpx⟩ := List.any_eq_true.mp h
  refine List.find?_isSome.mpr ⟨setArchivedIfMatch report_id x, List.mem_map.mpr ⟨x, hx, rfl⟩, ?_⟩
  show ((setArchivedIfMatch report_id x).report_id == report_id) = true
  rw [setArchivedIfMatch_report_id]
  exact hpx

theorem is_report_present_map_archive (db : DB) (report_id target : Int) :
    is_report_present { db with reports := db.reports.map (setArchivedIfMatch target) } report_id =
      is_report_present db report_id := by
  unfold is_report_present
  dsimp only
  rw [List.any_map]
  have hfun : ((fun r : Report => r.report_id == report_id) ∘ setArchivedIfMatch target) =
      (fun r : Report => r.report_id == report_id) := by
    funext r
    show ((setArchivedIfMatch target r).report_id == report_id) = (r.report_id == report_id)
    rw [setArchivedIfMatch_report_id]
  rw [hfun]

theorem add_room_db (db : DB) (s : RoomSubmission) :
    (add_room db s).db =
      { db with rooms := db.rooms ++ [⟨db.next_room_id, s.name, s.description⟩],
                next_room_id := db.next_room_id + 1 } := rfl

theorem delete_room_db_cases (db : DB) (i : Int) :
    (delete_room db i).db = db ∨
    (delete_room db i).db = { db with rooms := db.rooms.filter (fun r => !(r.room_id == i)) } := by
  unfold delete_room
  split
  · exact Or.inl rfl
  · split
    · exact Or.inl rfl
    · exact Or.inr rfl

theorem add_machine_db_cases (db : DB) (s : MachineSubmission) :
    (add_machine db s).db = db ∨
    (add_machine db s).db =
      { db with machines := db.machines ++ [⟨s.machine_id, s.room_id, s.machine_type⟩] } := by
  unfold add_machine
  split
  · exact Or.inl rfl
  · split
    · exact Or.inl rfl
    · exact Or.inr rfl

theorem delete_machine_db_cases (db : DB) (i : Int) (m : String) :
    (delete_machine db i m).db = db ∨
    (delete_machine db i m).db =
      { db with machines :=
          db.machines.filter (fun x => !(x.room_id == i && x.machine_id == m)) } := by
  unfold delete_machine
  split
  · exact Or.inl rfl
  · split
    · exact Or.inl rfl
    · exact Or.inr rfl

theorem add_user_db_cases (db : DB) (s : UserSubmission) :
    (add_user db s).db = db ∨
    (add_user db s).db = { db with users := db.users ++ [⟨s.username, s.admin⟩] } := by
  unfold add_user
  split
  · exact Or.inl rfl
  · exact Or.inr rfl

theorem delete_user_db_cases (db : DB) (u : String) :
    (delete_user db u).db = db ∨
    (delete_user db u).db = { db with users := db.users.filter (fun x => !(x.username == u)) } := by
  unfold delete_user
  split
  · exact Or.inl rfl
  · split
    · exact Or.inl rfl
    · exact Or.inr rfl

theorem delete_report_db_cases (db : DB) (i : Int) :
    (delete_report db i).db = db ∨
    (delete_report db i).db =
      { db with reports := db.reports.filter (fun r => !(r.report_id == i)) } := by
  unfold delete_report
  split
  · exact Or.inl rfl
  · split
    · exact Or.inl rfl
    · exact Or.inr rfl

theorem archive_report_db_cases (db : DB) (i : Int) :
    (archive_report db i).db = db ∨
    (archive_report db i).db = { db with reports := db.reports.map (setArchivedIfMatch i) } := by
  unfold archive_report
  split
  · exact Or.inl rfl
  · dsimp only
    split
    · exact Or.inr rfl
    · exact Or.inr rfl

theorem submit_report_db_cases (db : DB) (s : ReportSubmission) (now : Nat)
    (e : Option SqlxError) :
    (submit_report db s now e).db = db ∨
    (submit_report db s now e).db =
      { db with reports := db.reports ++ [newReport db s now],
                next_report_id := db.next_report_id + 1 } := by
  unfold submit_report
  split
  · exact Or.inl rfl
  · split
    · split <;> exact Or.inl rfl
    · exact Or.inr rfl

theorem wfReports_filter (db : DB) (q : Report → Bool) (hw : db.wfReports) :
    DB.wfReports { db with reports := db.reports.filter q } := by
  obtain ⟨hb, hu⟩ := hw
  unfold DB.wfReports
  refine ⟨fun r hr => hb r (List.mem_filter.mp hr).1,
    fun r hr r₂ hr₂ hid => hu r (List.mem_filter.mp hr).1 r₂ (List.mem_filter.mp hr₂).1 hid⟩

theorem wfReports_map_archive (db : DB) (t : Int) (hw : db.wfReports) :
    DB.wfReports { db with reports := db.reports.map (setArchivedIfMatch t) } := by
  obtain ⟨hb, hu⟩ := hw
  unfold DB.wfReports
  constructor
  · intro r hr
    obtain ⟨a, ha, rfl⟩ := List.mem_map.mp hr
    rw [setArchivedIfMatch_report_id]
    exact hb a ha
  · intro r hr r₂ hr₂ hid
    obtain ⟨a, ha, rfl⟩ := List.mem_map.mp hr
    obtain ⟨b, hbm, rfl⟩ := List.mem_map.mp hr₂
    rw [setArchivedIfMatch_report_id, setArchivedIfMatch_report_id] at hid
    rw [hu a ha b hbm hid]

theorem wfReports_insert_fresh (db : DB) (r : Report) (hid : r.report_id = db.next_report_id)
    (hw : db.wfReports) :
    DB.wfReports { db with reports := db.reports ++ [r],
                           next_report_id := db.next_report_id + 1 } := by
  obtain ⟨hb, hu⟩ := hw
  unfold DB.wfReports
  dsimp only
  constructor
  · intro x hx
    rcases List.mem_append.mp hx with hx | hx
    · have := hb x hx
      omega
    · rw [List.mem_singleton.mp hx, hid]
      omega
  · intro x hx y hy hxy
    rcases List.mem_append.mp hx with hx | hx <;> rcases List.mem_append.mp hy with hy | hy
    · exact hu x hx y hy hxy
    · have h1 := hb x hx
      rw [List.mem_singleton.mp hy, hid] at hxy
      omega
    · have h1 := hb y hy
      rw [List.mem_singleton.mp hx, hid] at hxy
      omega
    · rw [List.mem_singleton.mp hx, List.mem_singleton.mp hy]

theorem step_preserves_wfReports (db : DB) (hw : db.wfReports) (op : Op) :
    (step db op).wfReports := by
  cases op with
  | addRoom s => exact hw
  | deleteRoom i =>
    rcases delete_room_db_cases db i with h | h <;> rw [step, h]
    · exact hw
    · exact ⟨hw.1, hw.2⟩
  | addMachine s =>
    rcases add_machine_db_cases db s with h | h <;> rw [step, h]
    · exact hw
    · exact ⟨hw.1, hw.2⟩
  | deleteMachine i m =>
    rcases delete_machine_db_cases db i m with h | h <;> rw [step, h]
    · exact hw
    · exact ⟨hw.1, hw.2⟩
  | addUser s =>
    rcases add_user_db_cases db s with h | h <;> rw [step, h]
    · exact hw
    · exact ⟨hw.1, hw.2⟩
  | deleteUser u =>
    rcases delete_user_db_cases db u with h | h <;> rw [step, h]
    · exact hw
    · exact ⟨hw.1, hw.2⟩
  | submitReport s now e =>
    rcases submit_report_db_cases db s now e with h | h <;> rw [step, h]
    · exact hw
    · exact wfReports_insert_fresh db (newReport db s now) rfl hw
  | deleteReport i =>
    rcases delete_report_db_cases db i with h | h <;> rw [step, h]
    · exact hw
    · exact wfReports_filter db _ hw
  | archiveReport i =>
    rcases archive_report_db_cases db i with h | h <;> rw [step, h]
    · exact hw
    · exact wfReports_map_archive db i hw

theorem mono_of_unchanged {db : DB} (hw : db.wfReports) (r r₂ : Report)
    (hr : r ∈ db.reports) (ha : r.archived = true)
    (hr₂ : r₂ ∈ db.reports) (hid : r₂.report_id = r.report_id) : r₂.archived = true := by
  rw [hw.2 r₂ hr₂ r hr hid]
  exact ha

theorem step_archived_monotone (db : DB) (hw : db.wfReports) (op : Op)
    (r r₂ : Report) (hr : r ∈ db.reports) (ha : r.archived = true)
    (hr₂ : r₂ ∈ (step db op).reports) (hid : r₂.report_id = r.report_id) :
    r₂.archived = true := by
  cases op with
  | addRoom s => exact mono_of_unchanged hw r r₂ hr ha hr₂ hid
  | deleteRoom i =>
    rcases delete_room_db_cases db i with h | h <;> rw [step, h] at hr₂ <;>
      exact mono_of_unchanged hw r r₂ hr ha hr₂ hid
  | addMachine s =>
    rcases add_machine_db_cases db s with h | h <;> rw [step, h] at hr₂ <;>
      exact mono_of_unchanged hw r r₂ hr ha hr₂ hid
  | deleteMachine i m =>
    rcases delete_machine_db_cases db i m with h | h <;> rw [step, h] at hr₂ <;>
      exact mono_of_unchanged hw r r₂ hr ha hr₂ hid
  | addUser s =>
    rcases add_user_db_cases db s with h | h <;> rw [step, h] at hr₂ <;>
      exact mono_of_unchanged hw r r₂ hr ha hr₂ hid
  | deleteUser u =>
    rcases delete_user_db_cases db u with h | h <;> rw [step, h] at hr₂ <;>
      exact mono_of_unchanged hw r r₂ hr ha hr₂ hid
  | submitReport s now e =>
    rcases submit_report_db_cases db s now e with h | h <;> rw [step, h] at hr₂
    · exact mono_of_unchanged hw r r₂ hr ha hr₂ hid
    · rcases List.mem_append.mp hr₂ with h2 | h2
      · exact mono_of_unchanged hw r r₂ hr ha h2 hid
      · have hb := hw.1 r hr
        rw [List.mem_singleton.mp h2] at hid
        unfold newReport at hid
        dsimp only at hid
        omega
  | deleteReport i =>
    rcases delete_report_db_cases db i with h | h <;> rw [step, h] at hr₂
    · exact mono_of_unchanged hw r r₂ hr ha hr₂ hid
    · exact mono_of_unchanged hw r r₂ hr ha (List.mem_filter.mp hr₂).1 hid
  | archiveReport i =>
    rcases archive_report_db_cases db i with h | h <;> rw [step, h] at hr₂
    · exact mono_of_unchanged hw r r₂ hr ha hr₂ hid
    · obtain ⟨b, hbm, rfl⟩ := List.mem_map.mp hr₂
      rw [setArchivedIfMatch_report_id] at hid
      rw [hw.2 b hbm r hr hid]
      exact setArchivedIfMatch_keeps_archived i r ha

theorem submit_report_body_archived_false (db : DB) (s : ReportSubmission) (now : Nat)
    (r : Report) (h : (submit_report db s now none).body = some r) : r.archived = false := by
  unfold submit_report at h
  split at h
  · exact absurd h (by simp)
  · dsimp only at h
    rw [← Option.some_inj.mp h]

theorem any_filter_not {α : Type} (l : List α) (p : α → Bool) :
    (l.filter (fun a => !(p a))).any p = false := by
  rw [List.any_eq_false]
  intro x hx
  obtain ⟨_, hq⟩ := List.mem_filter.mp hx
  simp only [Bool.not_eq_true'] at hq
  simp [hq]

theorem find?_isSome_of_any {α : Type} (l : List α) (p : α → Bool) (h : l.any p = true) :
    (l.find? p).isSome = true :=
  List.find?_isSome.mpr (List.any_eq_true.mp h)

theorem delete_room_404 (db : DB) (i : Int) (h : is_room_present db i = false) :
    delete_room db i = ⟨404, none, db⟩ := by
  unfold delete_room
  rw [h]
  rfl

theorem delete_room_200 (db : DB) (i : Int) (r : Room) (h : is_room_present db i = true)
    (hfind : db.rooms.find? (fun x => x.room_id == i) = some r) :
    delete_room db i =
      ⟨200, some r, { db with rooms := db.rooms.filter (fun x => !(x.room_id == i)) }⟩ := by
  unfold delete_room
  rw [h, hfind]
  rfl

theorem delete_user_404 (db : DB) (u : String) (h : is_username_present db u = false) :
    delete_user db u = ⟨404, none, db⟩ := by
  unfold delete_user
  rw [h]
  rfl

theorem delete_user_200 (db : DB) (u : String) (x : User) (h : is_username_present db u = true)
    (hfind : db.users.find? (fun y => y.username == u) = some x) :
    delete_user db u =
      ⟨200, some x, { db with users := db.users.filter (fun y => !(y.username == u)) }⟩ := by
  unfold delete_user
  rw [h, hfind]
  rfl

theorem delete_report_404 (db : DB) (i : Int) (h : is_report_present db i = false) :
    delete_report db i = ⟨404, none, db⟩ := by
  unfold delete_report
  rw [h]
  rfl

theorem delete_report_200 (db : DB) (i : Int) (r : Report) (h : is_report_present db i = true)
    (hfind : db.reports.find? (fun x => x.report_id == i) = some r) :
    delete_report db i =
      ⟨200, some r, { db with reports := db.reports.filter (fun x => !(x.report_id == i)) }⟩ := by
  unfold delete_report
  rw [h, hfind]
  rfl

theorem delete_machine_404 (db : DB) (i : Int) (m : String)
    (h : is_machine_present db i m = false) :
    delete_machine db i m = ⟨404, none, db⟩ := by
  unfold delete_machine
  rw [h]
  rfl

theorem delete_machine_200 (db : DB) (i : Int) (m : String) (x : Machine)
    (h : is_machine_present db i m = true)
    (hfind : db.machines.find? (fun y => y.room_id == i && y.machine_id == m) = some x) :
    delete_machine db i m =
      ⟨200, some x,
        { db with machines :=
            db.machines.filter (fun y => !(y.room_id == i && y.machine_id == m)) }⟩ := by
  unfold delete_machine
  rw [h, hfind]
  rfl

theorem archive_report_400 (db : DB) (i : Int) (h : is_report_present db i = false) :
    archive_report db i = ⟨400, none, db⟩ := by
  unfold archive_report
  rw [h]
  rfl

/-- C1: the claim says the room archived-reports listing returns exactly
the stored reports of the room whose `archived` flag is true, and that an
archived report appears there and not in the unarchived listing.  The
handler's SQL filters on `archived = false` (`src/room.rs:333`), against
its own route name, doc string and response example: on a database whose
room 1 holds one archived report, the archived listing answers 200 with
an empty array — the archived report appears in neither room listing. -/
theorem get_room_archived_reports_drops_archived_rows :
    archivedReport ∈ dbArchived.reports ∧
    archivedReport.room_id = 1 ∧
    archivedReport.archived = true ∧
    (get_room_archived_reports dbArchived 1).status = 200 ∧
    (get_room_archived_reports dbArchived 1).body = some [] ∧
    (get_room_reports dbArchived 1).body = some [] := by
  decide

/-- C2 counterexample: the derived JSON serialization of
`MachineType.Washer` is not the lowercase token `"washer"`. -/
theorem machineType_json_not_lowercase :
    MachineType.serdeJsonToken MachineType.Washer ≠ "washer" := by
  decide

/-- C2 (amended): in response bodies the enums serialize as the variant
name verbatim (capitalized, e.g. `"Washer"`, `"Broken"`); the lowercase
tokens are exactly the character-wise lowercased variant names, and they
are used only in the database-side `sqlx` type encoding, not in JSON. -/
theorem enum_json_tokens_capitalized_db_tokens_lowercase :
    (∀ m : MachineType, m.sqlxTypeToken.data = m.serdeJsonToken.data.map Char.toLower ∧
      m.serdeJsonToken ≠ m.sqlxTypeToken) ∧
    (∀ t : ReportType, t.sqlxTypeToken.data = t.serdeJsonToken.data.map Char.toLower ∧
      t.serdeJsonToken ≠ t.sqlxTypeToken) := by
  constructor
  · intro m
    cases m <;> exact ⟨by decide, by decide⟩
  · intro t
    cases t <;> exact ⟨by decide, by decide⟩

/-- C3 counterexample: it is not the case that every method-and-path
pair of the spec's HTTP surface table is bound in `main`: POST /room/,
DELETE /room/{room_id}, POST and DELETE under /machine and /user, and
POST /report/archive are all absent from the registered routes. -/
theorem spec_routes_missing_from_main :
    ¬(("POST", "/room/") ∈ registeredRoutes ∧
      ("DELETE", "/room/{room_id}") ∈ registeredRoutes ∧
      ("POST", "/machine/") ∈ registeredRoutes ∧
      ("DELETE", "/machine/{room_id}/{machine_id}") ∈ registeredRoutes ∧
      ("POST", "/user/") ∈ registeredRoutes ∧
      ("DELETE", "/user/{username}") ∈ registeredRoutes ∧
      ("POST", "/report/archive") ∈ registeredRoutes) := by
  decide

/-- C3 (amended): `main` binds only the collection/single-item GET routes
of the four resources plus POST /report/ and DELETE /report/{report_id};
handler functions for the create/delete routes of room, machine and user
and for POST /report/archive exist in the crate but are not registered
in the composed application. -/
theorem main_binds_only_listed_routes :
    registeredRoutes.all (fun r => definedHandlerRoutes.contains r) = true ∧
    ([("POST", "/room/"), ("DELETE", "/room/{room_id}"), ("POST", "/machine/"),
      ("DELETE", "/machine/{room_id}/{machine_id}"), ("POST", "/user/"),
      ("DELETE", "/user/{username}"), ("POST", "/report/archive")].all
        (fun r => definedHandlerRoutes.contains r && !(registeredRoutes.contains r))) = true := by
  decide

/-- C4 counterexample: with the referenced machine present, an insert
failure that is a database-reported error but not a constraint violation
(`ErrorKind::Other`) is answered with status 400, where the claim
demands 500 for every non-constraint storage failure. -/
theorem submit_report_400_on_nonconstraint_database_error :
    SqlxError.isConstraintViolation (SqlxError.database DatabaseErrorKind.other) = false ∧
    is_machine_present dbArchived brokenDryerSubmission.room_id
      brokenDryerSubmission.machine_id = true ∧
    (submit_report dbArchived brokenDryerSubmission 0
      (some (SqlxError.database DatabaseErrorKind.other))).status ≠ 500 := by
  decide

/-- C4 (amended): when the referenced machine exists and the insert
statement fails, `submit_report` returns 400 exactly when the storage
error is a database-reported error (`sqlx::Error::Database`, of any
kind, constraint violation or not), and 500 for every other storage
failure. -/
theorem submit_report_insert_error_classification (db : DB) (s : ReportSubmission)
    (now : Nat) (e : SqlxError)
    (h : is_machine_present db s.room_id s.machine_id = true) :
    (submit_report db s now (some e)).status =
      if e.isDatabaseError = true then 400 else 500 := by
  unfold submit_report
  rw [h]
  cases e <;> rfl

/-- C4 witness: the amended classification evaluated at a concrete
non-database failure. -/
theorem submit_report_insert_error_classification_witness :
    (submit_report dbArchived brokenDryerSubmission 0 (some SqlxError.ioError)).status =
      if SqlxError.ioError.isDatabaseError = true then 400 else 500 :=
  submit_report_insert_error_classification dbArchived brokenDryerSubmission 0
    SqlxError.ioError (by decide)

/-- C5: machine creation returns 400 when the room is absent, 409 when
the composite key already exists, and otherwise inserts the row, returns
201, and the machine is subsequently retrievable via `get_machine`. -/
theorem add_machine_statuses_and_retrievable (db : DB) (s : MachineSubmission) :
    (is_room_present db s.room_id = false → add_machine db s = ⟨400, none, db⟩) ∧
    (is_room_present db s.room_id = true →
      is_machine_present db s.room_id s.machine_id = true →
      add_machine db s = ⟨409, none, db⟩) ∧
    (is_room_present db s.room_id = true →
      is_machine_present db s.room_id s.machine_id = false →
      add_machine db s =
        ⟨201, some ⟨s.machine_id, s.room_id, s.machine_type⟩,
          { db with machines := db.machines ++ [⟨s.machine_id, s.room_id, s.machine_type⟩] }⟩ ∧
      get_machine (add_machine db s).db s.room_id s.machine_id =
        ⟨200, some ⟨s.machine_id, s.room_id, s.machine_type⟩, (add_machine db s).db⟩) := by
  refine ⟨fun h => ?_, fun h h2 => ?_, fun h h2 => ?_⟩
  · unfold add_machine
    rw [h]
    rfl
  · unfold add_machine
    rw [h, h2]
    rfl
  · have hadd : add_machine db s =
        ⟨201, some ⟨s.machine_id, s.room_id, s.machine_type⟩,
          { db with machines := db.machines ++ [⟨s.machine_id, s.room_id, s.machine_type⟩] }⟩ := by
      unfold add_machine
      rw [h, h2]
      rfl
    refine ⟨hadd, ?_⟩
    rw [hadd]
    unfold get_machine
    have hnone : db.machines.find?
        (fun m => m.room_id == s.room_id && m.machine_id == s.machine_id) = none := by
      rw [List.find?_eq_none]
      intro x hx hpx
      unfold is_machine_present at h2
      rw [List.any_eq_true.mpr ⟨x, hx, hpx⟩] at h2
      exact Bool.true_eq_false.mp h2
    show (match List.find?
        (fun m => m.room_id == s.room_id && m.machine_id == s.machine_id)
        (db.machines ++ [⟨s.machine_id, s.room_id, s.machine_type⟩]) with
      | some machine => _
      | none => _) = _
    rw [List.find?_append, hnone]
    simp [List.find?]

/-- C5 witness: creating machine `A` in the one-room database succeeds
with 201 and the row is then retrievable. -/
theorem add_machine_statuses_and_retrievable_witness :
    add_machine dbRoomOnly machineSubA =
      ⟨201, some ⟨machineSubA.machine_id, machineSubA.room_id, machineSubA.machine_type⟩,
        { dbRoomOnly with machines := dbRoomOnly.machines ++
            [⟨machineSubA.machine_id, machineSubA.room_id, machineSubA.machine_type⟩] }⟩ ∧
    get_machine (add_machine dbRoomOnly machineSubA).db machineSubA.room_id
        machineSubA.machine_id =
      ⟨200, some ⟨machineSubA.machine_id, machineSubA.room_id, machineSubA.machine_type⟩,
        (add_machine dbRoomOnly machineSubA).db⟩ :=
  (add_machine_statuses_and_retrievable dbRoomOnly machineSubA).2.2 (by decide) (by decide)

/-- C6: `archive_report` returns 400 (state unchanged) when no report
with the id exists; otherwise it returns 200, the returned row has the
requested id and `archived = true`, every stored row with that id ends
archived regardless of its previous value, and re-archiving leaves the
database state fixed (idempotent at the data level). -/
theorem archive_report_behavior (db : DB) (report_id : Int) :
    (is_report_present db report_id = false →
      archive_report db report_id = ⟨400, none, db⟩) ∧
    (is_report_present db report_id = true →
      (archive_report db report_id).status = 200 ∧
      ((archive_report db report_id).body.map Report.archived) = some true ∧
      ((archive_report db report_id).body.map Report.report_id) = some report_id ∧
      ((archive_report db report_id).db.reports.all
        (fun r => !(r.report_id == report_id) || r.archived)) = true ∧
      (archive_report (archive_report db report_id).db report_id).db =
        (archive_report db report_id).db) := by
  refine ⟨fun h => archive_report_400 db report_id h, fun h => ?_⟩
  have hsome := archive_updated_find?_isSome db report_id h
  obtain ⟨rep, hfind⟩ := Option.isSome_iff_exists.mp hsome
  have harch : archive_report db report_id =
      ⟨200, some rep, { db with reports := db.reports.map (setArchivedIfMatch report_id) }⟩ := by
    unfold archive_report
    rw [h]
    dsimp only
    rw [hfind]
    rfl
  have hp := List.find?_some hfind
  obtain ⟨a, ha, hfa⟩ := List.mem_map.mp (List.mem_of_find?_eq_some hfind)
  have hpa : (a.report_id == report_id) = true := by
    have hid := setArchivedIfMatch_report_id report_id a
    rw [hfa] at hid
    rw [← hid]
    exact hp
  have hrep_arch : rep.archived = true := by
    rw [← hfa, setArchivedIfMatch_of_beq report_id a hpa]
  rw [harch]
  refine ⟨rfl, ?_, ?_, ?_, ?_⟩
  · simp [hrep_arch]
  · simp [beq_iff_eq.mp hp]
  · rw [List.all_eq_true]
    intro r hr
    obtain ⟨b, hb, hfb⟩ := List.mem_map.mp hr
    by_cases hbeq : (b.report_id == report_id) = true
    · rw [← hfb, setArchivedIfMatch_of_beq report_id b hbeq]
      simp
    · have hb2 : (b.report_id == report_id) = false := by simpa using hbeq
      have hr2 : (r.report_id == report_id) = false := by
        rw [← hfb, setArchivedIfMatch_report_id]
        exact hb2
      simp [hr2]
  · have hpres2 : is_report_present
        { db with reports := db.reports.map (setArchivedIfMatch report_id) } report_id = true := by
      rw [is_report_present_map_archive]
      exact h
    unfold archive_report
    rw [hpres2]
    dsimp only
    rw [map_setArchivedIfMatch_idem, hfind]
    rfl

/-- C6 witness: archiving the already-archived report 1 of the concrete
database still succeeds with 200 and the same resulting state. -/
theorem archive_report_behavior_witness :
    (archive_report dbArchived 1).status = 200 ∧
    ((archive_report dbArchived 1).body.map Report.archived) = some true ∧
    ((archive_report dbArchived 1).body.map Report.report_id) = some 1 ∧
    ((archive_report dbArchived 1).db.reports.all
      (fun r => !(r.report_id == (1 : Int)) || r.archived)) = true ∧
    (archive_report (archive_report dbArchived 1).db 1).db =
      (archive_report dbArchived 1).db :=
  (archive_report_behavior dbArchived 1).2 (by decide)

/-- C7: over the exposed operations the `archived` flag of a report
never goes from true back to false: every step preserves the report
table's well-formedness, a report archived before a step is still
archived (at the same id) after it, and `submit_report` only creates
rows with `archived = false`. -/
theorem report_archived_flag_monotone (db : DB) (hw : db.wfReports) :
    (∀ op, (step db op).wfReports) ∧
    (∀ op r r₂, r ∈ db.reports → r.archived = true → r₂ ∈ (step db op).reports →
      r₂.report_id = r.report_id → r₂.archived = true) ∧
    (∀ s now r, (submit_report db s now none).body = some r → r.archived = false) :=
  ⟨fun op => step_preserves_wfReports db hw op,
   fun op r r₂ hr ha hr₂ hid => step_archived_monotone db hw op r r₂ hr ha hr₂ hid,
   fun s now r hb => submit_report_body_archived_false db s now r hb⟩

/-- C7 witness: the concrete database is well-formed and stays so after
a step. -/
theorem report_archived_flag_monotone_witness :
    dbArchived.wfReports ∧ (step dbArchived (Op.archiveReport 1)).wfReports :=
  ⟨by decide, (report_archived_flag_monotone dbArchived (by decide)).1 (Op.archiveReport 1)⟩

/-- C8: rejected creates leave the stored state unchanged: a report
submission whose (room, machine) pair is absent answers 400 with the
database untouched (whatever the would-be insert outcome), and a user
creation on a taken username answers 409 with the database untouched, so
the existing row's `admin` flag is preserved. -/
theorem rejected_creates_leave_db_unchanged (db : DB) :
    (∀ s now e, is_machine_present db s.room_id s.machine_id = false →
      submit_report db s now e = ⟨400, none, db⟩) ∧
    (∀ s, is_username_present db s.username = true →
      add_user db s = ⟨409, none, db⟩) := by
  constructor
  · intro s now e h
    unfold submit_report
    rw [h]
    rfl
  · intro s h
    unfold add_user
    rw [h]
    rfl

/-- C8 witness: a report against the empty database is rejected with 400
and no state change; re-creating user `admin` with a different flag is
rejected with 409 and no state change. -/
theorem rejected_creates_leave_db_unchanged_witness :
    submit_report emptyDB brokenDryerSubmission 0 none = ⟨400, none, emptyDB⟩ ∧
    add_user dbArchived ⟨"admin", false⟩ = ⟨409, none, dbArchived⟩ :=
  ⟨(rejected_creates_leave_db_unchanged emptyDB).1 brokenDryerSubmission 0 none (by decide),
   (rejected_creates_leave_db_unchanged dbArchived).2 ⟨"admin", false⟩ (by decide)⟩

/-- C9: deleting an existing room, user, or report answers 200 with the
deleted row (its key matching the request), after which the key is no
longer present and a second delete on the same key answers 404. -/
theorem delete_twice_200_then_404 (db : DB) :
    (∀ room_id : Int, is_room_present db room_id = true →
      (delete_room db room_id).status = 200 ∧
      ((delete_room db room_id).body.map Room.room_id) = some room_id ∧
      is_room_present (delete_room db room_id).db room_id = false ∧
      (delete_room (delete_room db room_id).db room_id).status = 404) ∧
    (∀ username : String, is_username_present db username = true →
      (delete_user db username).status = 200 ∧
      ((delete_user db username).body.map User.username) = some username ∧
      is_username_present (delete_user db username).db username = false ∧
      (delete_user (delete_user db username).db username).status = 404) ∧
    (∀ report_id : Int, is_report_present db report_id = true →
      (delete_report db report_id).status = 200 ∧
      ((delete_report db report_id).body.map Report.report_id) = some report_id ∧
      is_report_present (delete_report db report_id).db report_id = false ∧
      (delete_report (delete_report db report_id).db report_id).status = 404) := by
  refine ⟨fun room_id h => ?_, fun username h => ?_, fun report_id h => ?_⟩
  · obtain ⟨r, hfind⟩ := Option.isSome_iff_exists.mp (find?_isSome_of_any db.rooms _ h)
    have hdel := delete_room_200 db room_id r h hfind
    have hp := List.find?_some hfind
    have hnp : is_room_present (delete_room db room_id).db room_id = false := by
      rw [hdel]
      exact any_filter_not db.rooms (fun x => x.room_id == room_id)
    refine ⟨by rw [hdel], ?_, hnp, ?_⟩
    · rw [hdel]
      simp [beq_iff_eq.mp hp]
    · rw [delete_room_404 _ _ hnp]
  · obtain ⟨x, hfind⟩ := Option.isSome_iff_exists.mp (find?_isSome_of_any db.users _ h)
    have hdel := delete_user_200 db username x h hfind
    have hp := List.find?_some hfind
    have hnp : is_username_present (delete_user db username).db username = false := by
      rw [hdel]
      exact any_filter_not db.users (fun y => y.username == username)
    refine ⟨by rw [hdel], ?_, hnp, ?_⟩
    · rw [hdel]
      simp [beq_iff_eq.mp hp]
    · rw [delete_user_404 _ _ hnp]
  · obtain ⟨r, hfind⟩ := Option.isSome_iff_exists.mp (find?_isSome_of_any db.reports _ h)
    have hdel := delete_report_200 db report_id r h hfind
    have hp := List.find?_some hfind
    have hnp : is_report_present (delete_report db report_id).db report_id = false := by
      rw [hdel]
      exact any_filter_not db.reports (fun x => x.report_id == report_id)
    refine ⟨by rw [hdel], ?_, hnp, ?_⟩
    · rw [hdel]
      simp [beq_iff_eq.mp hp]
    · rw [delete_report_404 _ _ hnp]

/-- C9 witness: deleting room 1, user `admin`, and report 1 of the
concrete database each answers 200 first and 404 on repetition. -/
theorem delete_twice_200_then_404_witness :
    ((delete_room dbArchived 1).status = 200 ∧
      ((delete_room dbArchived 1).body.map Room.room_id) = some 1 ∧
      is_room_present (delete_room dbArchived 1).db 1 = false ∧
      (delete_room (delete_room dbArchived 1).db 1).status = 404) ∧
    ((delete_user dbArchived "admin").status = 200 ∧
      ((delete_user dbArchived "admin").body.map User.username) = some "admin" ∧
      is_username_present (delete_user dbArchived "admin").db "admin" = false ∧
      (delete_user (delete_user dbArchived "admin").db "admin").status = 404) ∧
    ((delete_report dbArchived 1).status = 200 ∧
      ((delete_report dbArchived 1).body.map Report.report_id) = some 1 ∧
      is_report_present (delete_report dbArchived 1).db 1 = false ∧
      (delete_report (delete_report dbArchived 1).db 1).status = 404) :=
  ⟨(delete_twice_200_then_404 dbArchived).1 1 (by decide),
   (delete_twice_200_then_404 dbArchived).2.1 "admin" (by decide),
   (delete_twice_200_then_404 dbArchived).2.2 1 (by decide)⟩

/-- C10: deletes do not cascade: `delete_room` touches only the `room`
table (removing exactly the rows with the given key) and leaves the
machine, report, and user tables unchanged; `delete_machine` touches
only the `machine` table (removing exactly the rows with the given
composite key) and leaves the room, report, and user tables unchanged. -/
theorem delete_room_and_machine_no_cascade (db : DB) (room_id : Int) (machine_id : String) :
    ((delete_room db room_id).db.machines = db.machines ∧
      (delete_room db room_id).db.reports = db.reports ∧
      (delete_room db room_id).db.users = db.users ∧
      (delete_room db room_id).db.rooms =
        db.rooms.filter (fun r => !(r.room_id == room_id))) ∧
    ((delete_machine db room_id machine_id).db.rooms = db.rooms ∧
      (delete_machine db room_id machine_id).db.reports = db.reports ∧
      (delete_machine db room_id machine_id).db.users = db.users ∧
      (delete_machine db room_id machine_id).db.machines =
        db.machines.filter (fun m => !(m.room_id == room_id && m.machine_id == machine_id))) := by
  constructor
  · by_cases h : is_room_present db room_id = true
    · obtain ⟨r, hfind⟩ := Option.isSome_iff_exists.mp (find?_isSome_of_any db.rooms _ h)
      rw [delete_room_200 db room_id r h hfind]
      exact ⟨rfl, rfl, rfl, rfl⟩
    · have h2 : is_room_present db room_id = false := by simpa using h
      rw [delete_room_404 db room_id h2]
      refine ⟨rfl, rfl, rfl, ?_⟩
      symm
      rw [List.filter_eq_self]
      intro a ha
      unfold is_room_present at h2
      rw [List.any_eq_false] at h2
      simpa using h2 a ha
  · by_cases h : is_machine_present db room_id machine_id = true
    · obtain ⟨x, hfind⟩ := Option.isSome_iff_exists.mp (find?_isSome_of_any db.machines _ h)
      rw [delete_machine_200 db room_id machine_id x h hfind]
      exact ⟨rfl, rfl, rfl, rfl⟩
    · have h2 : is_machine_present db room_id machine_id = false := by simpa using h
      rw [delete_machine_404 db room_id machine_id h2]
      refine ⟨rfl, rfl, rfl, ?_⟩
      symm
      rw [List.filter_eq_self]
      intro a ha
      unfold is_machine_present at h2
      rw [List.any_eq_false] at h2
      have hx : (a.room_id == room_id && a.machine_id == machine_id) = false :=
        Bool.eq_false_iff.mpr (h2 a ha)
      simp [hx]

end LaundryApi
